import Mathlib

/-!
Shallow embedding of the `flask_discord.models` package (files `base.py`,
`user.py`, `member.py`, `integration.py`) and proofs about its claims.

JSON payloads received from the Discord API are modelled by `JValue`;
Python `None` is `JValue.null`.  Exceptions raised by the Python code are
modelled by the error type `PyErr` together with `Except`.  Network calls
are modelled by an oracle function from a route string to the response
payload, and every fetch-style operation additionally returns the list of
routes it requested, in order.
-/

/-- A Python/JSON value as it appears in a decoded Discord payload.
`null` doubles as Python `None` (the default of `dict.get`). -/
inductive JValue where
  | null
  | bool (b : Bool)
  | int (n : Int)
  | str (s : String)
  | arr (xs : List JValue)
  | obj (kvs : List (String × JValue))

/-- Python truthiness (`bool(v)`) of a payload value. -/
def JValue.truthy : JValue → Bool
  | .null => false
  | .bool b => b
  | .int n => n != 0
  | .str s => !s.isEmpty
  | .arr xs => !xs.isEmpty
  | .obj kvs => !kvs.isEmpty

/-- Python `str(v)` as used when a value is interpolated into a URL
template.  Only `str` and `int` values actually occur in avatar hashes;
the remaining cases are rough renderings. -/
def JValue.pyStr : JValue → String
  | .null => "None"
  | .bool b => bif b then "True" else "False"
  | .int n => toString n
  | .str s => s
  | .arr _ => "[...]"
  | .obj _ => "\x7b...\x7d"

/-- Python `v == s` for a string literal `s` (comparison with a non-string
value is simply `False`, as in Python). -/
def pyEqStr (v : JValue) (s : String) : Bool :=
  match v with
  | .str t => t == s
  | _ => false

/-- Dictionary lookup, Python `d[k]` / the hit case of `d.get(k)`. -/
def pyLookup : List (String × JValue) → String → Option JValue
  | [], _ => none
  | (k', v) :: rest, k => if k' = k then some v else pyLookup rest k

/-- Python `d.get(k, default)`. -/
def pyGet (kvs : List (String × JValue)) (k : String) (d : JValue) : JValue :=
  (pyLookup kvs k).getD d

/-- The exceptions the embedded code can raise.  `unauthorized` models
`flask_discord.exceptions.Unauthorized` (its module is not part of the
sources here; per the spec it is a distinct, catchable condition), and
`notImplementedError` carries the message of the metaclass failure. -/
inductive PyErr where
  | keyError
  | typeError
  | valueError
  | attributeError
  | unauthorized
  | notImplementedError (msg : String)
deriving DecidableEq

/-- Character-level prefix test, used to model Python `str.startswith`. -/
def startsWithChars : List Char → List Char → Bool
  | [], _ => true
  | _ :: _, [] => false
  | p :: ps, c :: cs => p == c && startsWithChars ps cs

/-- Python `s.startswith(pre)`. -/
def pyStartsWith (s pre : String) : Bool :=
  startsWithChars pre.data s.data

/-- Fuel-driven worker for `pyReplace`; the fuel is the length of the
remaining input, which suffices because the needle is non-empty. -/
def replaceFuel (old new : List Char) : Nat → List Char → List Char
  | _, [] => []
  | 0, s => s
  | fuel + 1, c :: cs =>
    if startsWithChars old (c :: cs) then
      new ++ replaceFuel old new fuel ((c :: cs).drop old.length)
    else
      c :: replaceFuel old new fuel cs

/-- Python `s.replace(old, new)` for a non-empty `old`: replaces every
non-overlapping occurrence, scanning left to right. -/
def pyReplace (s old new : String) : String :=
  ⟨replaceFuel old.data new.data s.data.length s.data⟩

/-- Python `int(v)` applied to a payload value: accepts ints, bools and
decimal strings (with optional sign); `None` raises TypeError and a
non-numeric string raises ValueError, as in Python. -/
def parseDigits : List Char → Nat → Option Nat
  | [], acc => some acc
  | c :: cs, acc =>
    if c.isDigit then parseDigits cs (acc * 10 + (c.toNat - '0'.toNat)) else none

/-- Integer parse of a decimal string, modelling Python `int(str)`. -/
def strToInt (s : String) : Option Int :=
  match s.data with
  | [] => none
  | '-' :: cs => if cs.isEmpty then none else (parseDigits cs 0).map (fun n => -(n : Int))
  | '+' :: cs => if cs.isEmpty then none else (parseDigits cs 0).map (fun n => (n : Int))
  | cs => (parseDigits cs 0).map (fun n => (n : Int))

/-- Python `int(v)` on a payload value. -/
def pyInt : JValue → Except PyErr Int
  | .int n => .ok n
  | .bool b => .ok (bif b then 1 else 0)
  | .str s =>
    match strToInt s with
    | some n => .ok n
    | none => .error .valueError
  | _ => .error .typeError

/-- Python `x >> n` on an unbounded int (arithmetic/floor shift). -/
def pyRShift (x : Int) (n : Nat) : Int :=
  Int.fdiv x ((2 : Int) ^ n)

/-- Python `x % y` (sign follows the divisor, i.e. floor modulus). -/
def pyMod (x y : Int) : Int :=
  Int.fmod x y

/-- `DiscordModelsMeta.__init__` from `base.py` lines 9-12: class
definition fails fast with `NotImplementedError` when `ROUTE` is falsy
(the empty string) and the class is not `DiscordModelsBase` itself. -/
def DiscordModelsMeta.init (name ROUTE : String) : Except PyErr Unit :=
  if ROUTE = "" && name != "DiscordModelsBase" then
    .error (.notImplementedError ("ROUTE must be specified in a Discord model: " ++ name ++ "."))
  else
    .ok ()

/-- Modelled from the spec: `guild.py` is not among the sources; per spec
section 3 a Guild is a read-only payload snapshot whose identity is its
numeric `id`, which is the only attribute the embedded code reads. -/
structure Guild where
  id : Int

/-- The `GuildMember` model of `member.py`, fields as assigned in
`GuildMember.__init__` (lines 53-68).  `member_guild_id` embeds the
private attribute `_guild_id` set by `DiscordModelsBase.__init__`. -/
structure GuildMember where
  payload : JValue
  member_guild_id : Int
  user : JValue
  nick : JValue
  avatar_hash : JValue
  roles : JValue
  joined_at : JValue
  premium_since : JValue
  deaf : JValue
  mute : JValue
  flags : JValue
  pending : JValue
  permissions : JValue
  communication_disabled_until : JValue
  guild_id : Int
  id : Int

/-- `GuildMember.ROUTE` (`member.py` line 51). -/
def GuildMember.ROUTE : String := "/users/@me/guilds/{guild_id}/member"

/-- `GuildMember.__init__` (`member.py` lines 53-68).  Every optional key
is read with `.get`; the final line `self.id = int(self.user.get("id"))`
raises AttributeError when `user` is absent (then `self.user` is `None`)
or not a dict, and TypeError/ValueError when its `"id"` is missing or not
int-convertible.  A non-dict payload raises AttributeError at the first
`.get`. -/
def GuildMember.initObj (kvs : List (String × JValue)) (guild_id : Int) :
    Except PyErr GuildMember :=
  match pyGet kvs "user" .null with
  | .obj ukvs =>
    match pyInt (pyGet ukvs "id" .null) with
    | .error e => .error e
    | .ok i =>
      .ok
        { payload := .obj kvs
          member_guild_id := guild_id
          user := .obj ukvs
          nick := pyGet kvs "nick" .null
          avatar_hash := pyGet kvs "avatar" .null
          roles := pyGet kvs "roles" .null
          joined_at := pyGet kvs "joined_at" .null
          premium_since := pyGet kvs "premium_since" .null
          deaf := pyGet kvs "deaf" .null
          mute := pyGet kvs "mute" .null
          flags := pyGet kvs "flags" .null
          pending := pyGet kvs "pending" (.bool false)
          permissions := pyGet kvs "permissions" (.int 0)
          communication_disabled_until := pyGet kvs "communication_disabled_until" .null
          guild_id := guild_id
          id := i }
  | _ => .error .attributeError

/-- `GuildMember.__init__` on an arbitrary payload: a non-dict payload
raises AttributeError at the first `.get`. -/
def GuildMember.init (payload : JValue) (guild_id : Int) : Except PyErr GuildMember :=
  match payload with
  | .obj kvs => GuildMember.initObj kvs guild_id
  | _ => .error .attributeError

/-- `GuildMember.__eq__` (`member.py` lines 79-80): equality compares user
IDs only (the `isinstance` guard is true for any `GuildMember` value). -/
def GuildMember.eq (m other : GuildMember) : Bool :=
  other.id == m.id

/-- `GuildMember.__ne__` (`member.py` lines 82-83). -/
def GuildMember.ne (m other : GuildMember) : Bool :=
  !(GuildMember.eq m other)

/-- `GuildMember.is_avatar_animated` (`member.py` lines 95-101):
`startswith` on a non-string (AttributeError) is caught and yields
`False`. -/
def GuildMember.is_avatar_animated (m : GuildMember) : Bool :=
  match m.avatar_hash with
  | .str s => pyStartsWith s "a_"
  | _ => false

/-- Modelled from the spec: `configs.py` is not among the sources.  Spec
section 6: avatar URL templates are parameterized by base CDN URL,
user/guild ID, avatar hash and image format, png-style static format. -/
def DISCORD_IMAGE_FORMAT : String := "png"

/-- Modelled from the spec: gif-style animated image format. -/
def DISCORD_ANIMATED_IMAGE_FORMAT : String := "gif"

/-- Modelled from the spec: the user-avatar URL template. -/
def DISCORD_USER_AVATAR_BASE_URL (user_id : Int) (avatar_hash format : String) : String :=
  "https://cdn.discordapp.com/avatars/" ++ toString user_id ++ "/" ++ avatar_hash ++ "." ++ format

/-- Modelled from the spec: the guild-member avatar URL template. -/
def DISCORD_GUILD_MEMBER_AVATAR_BASE_URL (guild_id user_id : Int) (avatar_hash format : String) : String :=
  "https://cdn.discordapp.com/guilds/" ++ toString guild_id ++ "/users/" ++ toString user_id
    ++ "/avatars/" ++ avatar_hash ++ "." ++ format

/-- Modelled from the spec: the default-avatar URL template, parameterized
by one number. -/
def DISCORD_DEFAULT_USER_AVATAR_BASE_URL (modulo : Int) : String :=
  "https://cdn.discordapp.com/embed/avatars/" ++ toString modulo ++ ".png"

/-- `GuildMember.icon_url` (`member.py` lines 85-93): no URL when the
avatar hash is falsy, otherwise the guild-member template with the
animated or static format chosen by `is_avatar_animated`. -/
def GuildMember.icon_url (m : GuildMember) : Option String :=
  if !m.avatar_hash.truthy then
    none
  else
    some (DISCORD_GUILD_MEMBER_AVATAR_BASE_URL m.member_guild_id m.id m.avatar_hash.pyStr
      (if m.is_avatar_animated then DISCORD_ANIMATED_IMAGE_FORMAT else DISCORD_IMAGE_FORMAT))

/-- The `Integration` model of `integration.py`, fields as assigned in
`Integration.__init__` (lines 41-58). -/
structure Integration where
  payload : JValue
  id : Int
  name : JValue
  type : JValue
  enabled : JValue
  syncing : JValue
  role_id : Int
  expire_behaviour : JValue
  expire_grace_period : JValue
  account : JValue
  synced_at : JValue
  enable_emoticons : JValue
  subscriber_count : JValue
  revoked : JValue
  application : JValue
  scopes : JValue

/-- `Integration.__init__` (`integration.py` lines 41-58): every key is
optional; `id` and `role_id` are converted with `int(...)` and default to
`0` when absent. -/
def Integration.initObj (kvs : List (String × JValue)) : Except PyErr Integration :=
  match pyInt (pyGet kvs "id" (.int 0)) with
  | .error e => .error e
  | .ok i =>
    match pyInt (pyGet kvs "role_id" (.int 0)) with
    | .error e => .error e
    | .ok r =>
      .ok
        { payload := .obj kvs
          id := i
          name := pyGet kvs "name" .null
          type := pyGet kvs "type" .null
          enabled := pyGet kvs "enabled" .null
          syncing := pyGet kvs "syncing" .null
          role_id := r
          expire_behaviour := pyGet kvs "expire_behaviour" .null
          expire_grace_period := pyGet kvs "expire_grace_period" .null
          account := pyGet kvs "account" .null
          synced_at := pyGet kvs "synced_at" .null
          enable_emoticons := pyGet kvs "enable_emoticons" (.bool false)
          subscriber_count := pyGet kvs "subscriber_count" .null
          revoked := pyGet kvs "revoked" (.bool false)
          application := pyGet kvs "application" .null
          scopes := pyGet kvs "scopes" .null }

/-- `Integration.__init__` on an arbitrary payload: a non-dict payload
raises AttributeError at the first `.get`. -/
def Integration.init (payload : JValue) : Except PyErr Integration :=
  match payload with
  | .obj kvs => Integration.initObj kvs
  | _ => .error .attributeError

/-- Lookup in an int-keyed dictionary (Python `d[k]` hit / `k in d`). -/
def memberLookup : List (Int × GuildMember) → Int → Option GuildMember
  | [], _ => none
  | (k', v) :: rest, k => if k' = k then some v else memberLookup rest k

/-- Python dict assignment `d[k] = v`: overwrites an existing entry in
place, otherwise appends (insertion order is preserved). -/
def memberInsert : List (Int × GuildMember) → Int → GuildMember → List (Int × GuildMember)
  | [], k, v => [(k, v)]
  | (k', v') :: rest, k, v =>
    if k' = k then (k, v) :: rest else (k', v') :: memberInsert rest k v

/-- The `User` model of `user.py`, fields as assigned in `User.__init__`
(lines 62-82).  `user_guilds` embeds the private attribute `_guilds`
(`None` before any guild fetch, a guild-ID-keyed mapping after), and
`user_guild_members` embeds `_guild_members`. -/
structure User where
  payload : JValue
  id : Int
  username : JValue
  discriminator : JValue
  avatar_hash : JValue
  bot : JValue
  mfa_enabled : JValue
  locale : JValue
  verified : JValue
  email : JValue
  flags : JValue
  premium_type : JValue
  is_migrated : Bool
  global_name : JValue
  user_guilds : Option (List (Int × Guild))
  user_guild_members : List (Int × GuildMember)
  connections : JValue

/-- `User.ROUTE` (`user.py` line 60). -/
def User.ROUTE : String := "/users/@me"

/-- `User.__init__` (`user.py` lines 62-82).  `id`, `username` and
`discriminator` are indexed directly (KeyError when absent, and `int(...)`
may raise on `id`); every other key is optional.  Note line 67: the
default for the absent `"avatar"` key is `self.discriminator`; line 75:
`is_migrated` is the comparison of the `discriminator` value with the
string `"0"`; lines 76-77: `global_name` uses Python `or`, so a present
but falsy `global_name` value falls through to `username`. -/
def User.initObj (kvs : List (String × JValue)) : Except PyErr User :=
  match pyLookup kvs "id" with
  | none => .error .keyError
  | some idv =>
    match pyInt idv with
    | .error e => .error e
    | .ok i =>
      match pyLookup kvs "username" with
      | none => .error .keyError
      | some username =>
        match pyLookup kvs "discriminator" with
        | none => .error .keyError
        | some discriminator =>
          .ok
            { payload := .obj kvs
              id := i
              username := username
              discriminator := discriminator
              avatar_hash := pyGet kvs "avatar" discriminator
              bot := pyGet kvs "bot" (.bool false)
              mfa_enabled := pyGet kvs "mfa_enabled" .null
              locale := pyGet kvs "locale" .null
              verified := pyGet kvs "verified" .null
              email := pyGet kvs "email" .null
              flags := pyGet kvs "flags" .null
              premium_type := pyGet kvs "premium_type" .null
              is_migrated := pyEqStr (pyGet kvs "discriminator" .null) "0"
              global_name :=
                if pyEqStr (pyGet kvs "discriminator" .null) "0" then
                  (if (pyGet kvs "global_name" .null).truthy then pyGet kvs "global_name" .null
                   else pyGet kvs "username" .null)
                else .null
              user_guilds := none
              user_guild_members := []
              connections := .null }

/-- `User.__init__` on an arbitrary payload: indexing a non-dict payload
raises TypeError. -/
def User.init (payload : JValue) : Except PyErr User :=
  match payload with
  | .obj kvs => User.initObj kvs
  | _ => .error .typeError

/-- The `User.guilds` property getter (`user.py` lines 84-93): the guild
values of the cached mapping, or `None` (the swallowed AttributeError
branch) when no guild fetch has happened yet. -/
def User.guilds (u : User) : Option (List Guild) :=
  match u.user_guilds with
  | some m => some (m.map Prod.snd)
  | none => none

/-- The `User.guild_members` property getter (`user.py` lines 99-105). -/
def User.guild_members (u : User) : List (Int × GuildMember) :=
  u.user_guild_members

/-- The `User.guild_members` property setter (`user.py` lines 107-109):
`self._guild_members[value.guild_id] = value`. -/
def User.set_guild_members (u : User) (value : GuildMember) : User :=
  { u with user_guild_members := memberInsert u.user_guild_members value.guild_id value }

/-- `User.__eq__` (`user.py` lines 119-120): equality compares IDs only
(the `isinstance` guard is true for any `User` value). -/
def User.eq (u other : User) : Bool :=
  other.id == u.id

/-- `User.__ne__` (`user.py` lines 122-123). -/
def User.ne (u other : User) : Bool :=
  !(User.eq u other)

/-- `User.is_avatar_animated` (`user.py` lines 145-151): `startswith` on a
non-string (AttributeError) is caught and yields `False`. -/
def User.is_avatar_animated (u : User) : Bool :=
  match u.avatar_hash with
  | .str s => pyStartsWith s "a_"
  | _ => false

/-- `User.default_avatar_url` (`user.py` lines 140-143): the default
template at `(self.id >> 22) % 6`. -/
def User.default_avatar_url (u : User) : String :=
  DISCORD_DEFAULT_USER_AVATAR_BASE_URL (pyMod (pyRShift u.id 22) 6)

/-- `User.avatar_url` (`user.py` lines 130-138): the default-avatar URL
when the avatar hash is falsy, otherwise the user-avatar template with the
animated or static format chosen by `is_avatar_animated`. -/
def User.avatar_url (u : User) : String :=
  if !u.avatar_hash.truthy then
    u.default_avatar_url
  else
    DISCORD_USER_AVATAR_BASE_URL u.id u.avatar_hash.pyStr
      (if u.is_avatar_animated then DISCORD_ANIMATED_IMAGE_FORMAT else DISCORD_IMAGE_FORMAT)

/-- The route requested by `DiscordModelsBase.fetch_from_api` for
`GuildMember` (`base.py` lines 51-54): `{guild_id}` is substituted only
for a non-zero guild ID (zero is the no-guild sentinel). -/
def GuildMember.fetch_route (guild_id : Int) : String :=
  if guild_id = 0 then GuildMember.ROUTE
  else pyReplace GuildMember.ROUTE "{guild_id}" (toString guild_id)

/-- `GuildMember.fetch_from_api` with `cache=False` (`member.py` lines
103-129 over `base.py` lines 38-64): requests the member route and
constructs a `GuildMember` from the response.  For the sentinel
`guild_id = 0` the base class runs `cls(payload)` without the required
`guild_id` argument, a TypeError — but only after the request was made.
The second component is the list of requested routes. -/
def GuildMember.fetch_from_api (api : String → JValue) (guild_id : Int) :
    Except PyErr GuildMember × List String :=
  if guild_id = 0 then
    (.error .typeError, [GuildMember.fetch_route guild_id])
  else
    (GuildMember.init (api (GuildMember.fetch_route guild_id)) guild_id,
      [GuildMember.fetch_route guild_id])

/-- `User.fetch_guild_member` (`user.py` lines 255-272): fetches one
member and stores it through the `guild_members` setter, returning the
member and the updated user. -/
def User.fetch_guild_member (u : User) (api : String → JValue) (guild_id : Int) :
    Except PyErr (GuildMember × User) × List String :=
  match GuildMember.fetch_from_api api guild_id with
  | (.error e, log) => (.error e, log)
  | (.ok member, log) => (.ok (member, u.set_guild_members member), log)

/-- The `for guild in self.guilds` loop body of `User.fetch_guild_members`
(`user.py` lines 284-285), one fetch and one setter assignment per cached
guild, stopping at the first raised exception. -/
def User.fetch_guild_members_loop (api : String → JValue) :
    User → List Guild → Except PyErr User × List String
  | u, [] => (.ok u, [])
  | u, g :: gs =>
    match GuildMember.fetch_from_api api g.id with
    | (.error e, log) => (.error e, log)
    | (.ok member, log) =>
      match User.fetch_guild_members_loop api (u.set_guild_members member) gs with
      | (r, log2) => (r, log ++ log2)

/-- `User.fetch_guild_members` (`user.py` lines 274-286): iterates the
`guilds` property; when no guilds are cached the property is `None` and
the `for` raises TypeError; otherwise one fetch per cached guild, and the
result is the `guild_members` property of the updated user. -/
def User.fetch_guild_members (u : User) (api : String → JValue) :
    Except PyErr (List (Int × GuildMember) × User) × List String :=
  match u.guilds with
  | none => (.error .typeError, [])
  | some gs =>
    match User.fetch_guild_members_loop api u gs with
    | (.error e, log) => (.error e, log)
    | (.ok u', log) => (.ok (u'.guild_members, u'), log)

/-- `User.add_to_guild` (`user.py` lines 204-227): reading the access
token out of the authorization-token mapping raises `Unauthorized` on
KeyError, before any request; otherwise one bot-authorized PUT is issued
and a falsy response body is replaced by an empty dict.  The second
component is the list of issued bot requests (route, method, body). -/
def User.add_to_guild (u : User) (authorization_token : List (String × JValue))
    (botApi : String → String → JValue → JValue) (guild_id : Int) :
    Except PyErr JValue × List (String × String × JValue) :=
  match pyLookup authorization_token "access_token" with
  | none => (.error .unauthorized, [])
  | some tok =>
    let data : JValue := .obj [("access_token", tok)]
    let route := "/guilds/" ++ toString guild_id ++ "/members/" ++ toString u.id
    let resp := botApi route "PUT" data
    (.ok (if resp.truthy then resp else .obj []), [(route, "PUT", data)])

/-- Whether an `Except` computation succeeded (no exception raised). -/
def exceptOk {α : Type} : Except PyErr α → Bool
  | .ok _ => true
  | .error _ => false

/-- Sample authorization-token mapping holding an access token. -/
def tokA : List (String × JValue) := [("access_token", .str "tok")]

/-- A bot-request oracle whose responses are always empty bodies. -/
def botApiNull : String → String → JValue → JValue := fun _ _ _ => .null

/-- A request oracle answering every route with a well-formed member
payload. -/
def apiMember : String → JValue := fun _ => .obj [("user", .obj [("id", .str "9")])]

/-- Sample member of guild 1 with user ID 9 and an animated avatar. -/
def memberA : GuildMember :=
  { payload := .obj []
    member_guild_id := 1
    user := .obj [("id", .str "9")]
    nick := .null
    avatar_hash := .str "a_hash"
    roles := .null
    joined_at := .null
    premium_since := .null
    deaf := .null
    mute := .null
    flags := .null
    pending := .bool false
    permissions := .int 0
    communication_disabled_until := .null
    guild_id := 1
    id := 9 }

/-- Sample member of guild 2 with the same user ID 9. -/
def memberB : GuildMember :=
  { memberA with member_guild_id := 2, guild_id := 2 }

/-- Sample member with no avatar hash set. -/
def memberNoIcon : GuildMember :=
  { memberA with avatar_hash := .null }

/-- The member constructed from the `apiMember` payload in guild 7. -/
def member7 : GuildMember :=
  { payload := .obj [("user", .obj [("id", .str "9")])]
    member_guild_id := 7
    user := .obj [("id", .str "9")]
    nick := .null
    avatar_hash := .null
    roles := .null
    joined_at := .null
    premium_since := .null
    deaf := .null
    mute := .null
    flags := .null
    pending := .bool false
    permissions := .int 0
    communication_disabled_until := .null
    guild_id := 7
    id := 9 }

/-- Sample migrated user with an animated avatar, nothing cached. -/
def userA : User :=
  { payload := .obj []
    id := 42
    username := .str "alice"
    discriminator := .str "0"
    avatar_hash := .str "a_beef"
    bot := .bool false
    mfa_enabled := .null
    locale := .null
    verified := .null
    email := .null
    flags := .null
    premium_type := .null
    is_migrated := true
    global_name := .str "Alice"
    user_guilds := none
    user_guild_members := []
    connections := .null }

/-- A user with an empty cached guild mapping but one cached member. -/
def userE : User :=
  { userA with user_guilds := some [], user_guild_members := [(1, memberA)] }

/-- A user with one cached guild (ID 7). -/
def userG : User :=
  { userA with user_guilds := some [(7, { id := 7 })] }

/-- Payload of a migrated user with a present but null global name. -/
def payloadC4kvs : List (String × JValue) :=
  [("id", .str "1"), ("username", .str "alice"), ("discriminator", .str "0"),
   ("global_name", .null)]

/-- Payload of a migrated user with a truthy global name. -/
def kvs4w : List (String × JValue) :=
  [("id", .str "3"), ("username", .str "bob"), ("discriminator", .str "0"),
   ("global_name", .str "Bobby")]

/-- The user constructed from `kvs4w`. -/
def user4w : User :=
  { payload := .obj kvs4w
    id := 3
    username := .str "bob"
    discriminator := .str "0"
    avatar_hash := .str "0"
    bot := .bool false
    mfa_enabled := .null
    locale := .null
    verified := .null
    email := .null
    flags := .null
    premium_type := .null
    is_migrated := true
    global_name := .str "Bobby"
    user_guilds := none
    user_guild_members := []
    connections := .null }

/-- A user payload with required keys only and no avatar. -/
def kvs10 : List (String × JValue) :=
  [("id", .str "7"), ("username", .str "bob"), ("discriminator", .str "1234")]

/-- The user constructed from `kvs10`. -/
def user10 : User :=
  { payload := .obj kvs10
    id := 7
    username := .str "bob"
    discriminator := .str "1234"
    avatar_hash := .str "1234"
    bot := .bool false
    mfa_enabled := .null
    locale := .null
    verified := .null
    email := .null
    flags := .null
    premium_type := .null
    is_migrated := false
    global_name := .null
    user_guilds := none
    user_guild_members := []
    connections := .null }

/-- A user payload exercising the optional-key defaults of claim C6. -/
def kvs6 : List (String × JValue) :=
  [("id", .int 5), ("username", .str "u"), ("discriminator", .str "9")]

/-- A member payload whose only key is the mandatory `user` object. -/
def kvs6m : List (String × JValue) :=
  [("user", .obj [("id", .int 9)])]

/-- Looking a key up after a dictionary assignment: the assigned key maps
to the new value and every other key is unchanged. -/
theorem memberLookup_insert (m : List (Int × GuildMember)) (k : Int) (v : GuildMember)
    (j : Int) :
    memberLookup (memberInsert m k v) j = if k = j then some v else memberLookup m j := by
  induction m with
  | nil =>
    by_cases hj : k = j <;> simp [memberInsert, memberLookup, hj]
  | cons p rest ih =>
    obtain ⟨k', v'⟩ := p
    by_cases hk : k' = k
    · subst hk
      by_cases hj : k' = j <;> simp [memberInsert, memberLookup, hj]
    · by_cases hj : k' = j
      · subst hj
        have : ¬ k = k' := fun h => hk h.symm
        simp [memberInsert, memberLookup, hk, this]
      · simp [memberInsert, memberLookup, hk, hj, ih]

/-- `pyEqStr` agrees with propositional equality against a string value. -/
theorem pyEqStr_eq_true_iff (v : JValue) (s : String) :
    pyEqStr v s = true ↔ v = .str s := by
  cases v <;> simp [pyEqStr]

/-- Inversion of a successful `GuildMember.__init__`: the `user` value was
a dict with an int-convertible `id`, and every field holds exactly the
value the constructor assigns. -/
theorem GuildMember.initObj_inv (kvs : List (String × JValue)) (gid : Int)
    (m : GuildMember) (h : GuildMember.initObj kvs gid = .ok m) :
    ∃ ukvs i, pyGet kvs "user" .null = .obj ukvs ∧
      pyInt (pyGet ukvs "id" .null) = .ok i ∧
      m = { payload := .obj kvs
            member_guild_id := gid
            user := .obj ukvs
            nick := pyGet kvs "nick" .null
            avatar_hash := pyGet kvs "avatar" .null
            roles := pyGet kvs "roles" .null
            joined_at := pyGet kvs "joined_at" .null
            premium_since := pyGet kvs "premium_since" .null
            deaf := pyGet kvs "deaf" .null
            mute := pyGet kvs "mute" .null
            flags := pyGet kvs "flags" .null
            pending := pyGet kvs "pending" (.bool false)
            permissions := pyGet kvs "permissions" (.int 0)
            communication_disabled_until := pyGet kvs "communication_disabled_until" .null
            guild_id := gid
            id := i } := by
  unfold GuildMember.initObj at h
  split at h
  next ukvs huser =>
    split at h
    · simp at h
    next i hidint =>
      cases h
      exact ⟨ukvs, i, huser, hidint, rfl⟩
  next => simp at h

/-- A successfully constructed `GuildMember` carries the guild ID it was
constructed with. -/
theorem GuildMember.init_guild_id (payload : JValue) (gid : Int) (m : GuildMember)
    (h : GuildMember.init payload gid = .ok m) : m.guild_id = gid := by
  cases payload with
  | obj kvs =>
    obtain ⟨ukvs, i, -, -, rfl⟩ := GuildMember.initObj_inv kvs gid m h
    rfl
  | null => simp [GuildMember.init] at h
  | bool b => simp [GuildMember.init] at h
  | int n => simp [GuildMember.init] at h
  | str s => simp [GuildMember.init] at h
  | arr xs => simp [GuildMember.init] at h

/-- Inversion of a successful `User.__init__`: the required keys were
present, `id` was int-convertible, and every field holds exactly the value
the constructor assigns. -/
theorem User.init_obj_inv (kvs : List (String × JValue)) (u : User)
    (h : User.initObj kvs = .ok u) :
    ∃ idv i username discriminator,
      pyLookup kvs "id" = some idv ∧ pyInt idv = .ok i ∧
      pyLookup kvs "username" = some username ∧
      pyLookup kvs "discriminator" = some discriminator ∧
      u = { payload := .obj kvs
            id := i
            username := username
            discriminator := discriminator
            avatar_hash := pyGet kvs "avatar" discriminator
            bot := pyGet kvs "bot" (.bool false)
            mfa_enabled := pyGet kvs "mfa_enabled" .null
            locale := pyGet kvs "locale" .null
            verified := pyGet kvs "verified" .null
            email := pyGet kvs "email" .null
            flags := pyGet kvs "flags" .null
            premium_type := pyGet kvs "premium_type" .null
            is_migrated := pyEqStr (pyGet kvs "discriminator" .null) "0"
            global_name :=
              if pyEqStr (pyGet kvs "discriminator" .null) "0" then
                (if (pyGet kvs "global_name" .null).truthy then pyGet kvs "global_name" .null
                 else pyGet kvs "username" .null)
              else .null
            user_guilds := none
            user_guild_members := []
            connections := .null } := by
  unfold User.initObj at h
  split at h
  · simp at h
  next idv hid =>
    split at h
    · simp at h
    next i hint =>
      split at h
      · simp at h
      next username husr =>
        split at h
        · simp at h
        next discriminator hdis =>
          cases h
          exact ⟨idv, i, username, discriminator, hid, hint, husr, hdis, rfl⟩

/-- A non-empty string avatar hash makes `User.avatar_url` use the
hash-based template, with the animated format exactly on an `a_` prefix. -/
theorem User.avatar_url_str (u : User) (s : String) (hs : u.avatar_hash = .str s)
    (hne : s ≠ "") :
    u.avatar_url = DISCORD_USER_AVATAR_BASE_URL u.id s
      (if pyStartsWith s "a_" then DISCORD_ANIMATED_IMAGE_FORMAT else DISCORD_IMAGE_FORMAT) := by
  unfold User.avatar_url
  have hne' : s.isEmpty = false := by
    rw [Bool.eq_false_iff]
    intro htrue
    exact hne ((String.isEmpty_iff s).mp htrue)
  simp [User.is_avatar_animated, hs, JValue.pyStr, JValue.truthy, hne']

/-- A falsy avatar hash makes `User.avatar_url` fall back to the default
avatar at `(id >> 22) % 6`. -/
theorem User.avatar_url_falsy (u : User) (h : u.avatar_hash.truthy = false) :
    u.avatar_url = DISCORD_DEFAULT_USER_AVATAR_BASE_URL (pyMod (pyRShift u.id 22) 6) := by
  unfold User.avatar_url User.default_avatar_url
  simp [h]

/-- A non-empty string avatar hash makes `GuildMember.icon_url` use the
guild-member template, with the animated format exactly on an `a_`
prefix. -/
theorem GuildMember.icon_url_str (m : GuildMember) (s : String)
    (hs : m.avatar_hash = .str s) (hne : s ≠ "") :
    m.icon_url = some (DISCORD_GUILD_MEMBER_AVATAR_BASE_URL m.member_guild_id m.id s
      (if pyStartsWith s "a_" then DISCORD_ANIMATED_IMAGE_FORMAT else DISCORD_IMAGE_FORMAT)) := by
  unfold GuildMember.icon_url
  have hne' : s.isEmpty = false := by
    rw [Bool.eq_false_iff]
    intro htrue
    exact hne ((String.isEmpty_iff s).mp htrue)
  simp [GuildMember.is_avatar_animated, hs, JValue.pyStr, JValue.truthy, hne']

/-- A falsy avatar hash makes `GuildMember.icon_url` return no URL. -/
theorem GuildMember.icon_url_falsy (m : GuildMember) (h : m.avatar_hash.truthy = false) :
    m.icon_url = none := by
  unfold GuildMember.icon_url
  simp [h]

/-- A member fetch that raised no exception returned a constructed member
carrying the requested guild ID, and requested exactly its route. -/
theorem GuildMember.fetch_ok (api : String → JValue) (gid : Int)
    (h : exceptOk (GuildMember.fetch_from_api api gid).1 = true) :
    ∃ mem, GuildMember.fetch_from_api api gid = (.ok mem, [GuildMember.fetch_route gid]) ∧
      mem.guild_id = gid := by
  by_cases h0 : gid = 0
  · rw [GuildMember.fetch_from_api, if_pos h0] at h
    simp [exceptOk] at h
  · rw [GuildMember.fetch_from_api, if_neg h0] at h ⊢
    cases hinit : GuildMember.init (api (GuildMember.fetch_route gid)) gid with
    | error e => rw [hinit] at h; simp [exceptOk] at h
    | ok mem =>
      exact ⟨mem, rfl, GuildMember.init_guild_id _ _ _ hinit⟩

/-- Behaviour of the guild-member fetch loop when every per-guild fetch
succeeds: one request per cached guild in order, only the guild-members
mapping changes, entries for uncached guild IDs are untouched, existing
entries never disappear, and every iterated guild ID ends up present. -/
theorem fetch_guild_members_loop_spec (api : String → JValue) :
    ∀ (gs : List Guild) (u : User),
      (∀ g ∈ gs, exceptOk (GuildMember.fetch_from_api api g.id).1 = true) →
      ∃ u', User.fetch_guild_members_loop api u gs =
          (.ok u', gs.map (fun g => GuildMember.fetch_route g.id)) ∧
        u'.id = u.id ∧ u'.username = u.username ∧ u'.discriminator = u.discriminator ∧
        u'.avatar_hash = u.avatar_hash ∧ u'.user_guilds = u.user_guilds ∧
        u'.connections = u.connections ∧
        (∀ k : Int, (∀ g ∈ gs, g.id ≠ k) →
          memberLookup u'.user_guild_members k = memberLookup u.user_guild_members k) ∧
        (∀ k : Int, (memberLookup u.user_guild_members k).isSome = true →
          (memberLookup u'.user_guild_members k).isSome = true) ∧
        (∀ g ∈ gs, (memberLookup u'.user_guild_members g.id).isSome = true) := by
  intro gs
  induction gs with
  | nil =>
    intro u _
    exact ⟨u, rfl, rfl, rfl, rfl, rfl, rfl, rfl, fun _ _ => rfl, fun _ h => h, by simp⟩
  | cons g gs ih =>
    intro u hs
    obtain ⟨mem, hfetch, hgid⟩ := GuildMember.fetch_ok api g.id (hs g (List.mem_cons_self g gs))
    obtain ⟨u', hloop, h1, h2, h3, h4, h5, h6, hframe, hmono, hpresent⟩ :=
      ih (u.set_guild_members mem) (fun g' hg' => hs g' (List.mem_cons_of_mem g hg'))
    have hset : (u.set_guild_members mem).user_guild_members
        = memberInsert u.user_guild_members g.id mem := by
      simp [User.set_guild_members, hgid]
    refine ⟨u', ?_, h1, h2, h3, h4, h5, h6, ?_, ?_, ?_⟩
    · simp [User.fetch_guild_members_loop, hfetch, hloop]
    · intro k hk
      have hgk : g.id ≠ k := hk g (List.mem_cons_self g gs)
      rw [hframe k (fun g' hg' => hk g' (List.mem_cons_of_mem g hg')), hset,
        memberLookup_insert, if_neg hgk]
    · intro k hk
      refine hmono k ?_
      rw [hset, memberLookup_insert]
      by_cases hgk : g.id = k
      · simp [hgk]
      · rw [if_neg hgk]; exact hk
    · intro g' hg'
      rcases List.mem_cons.mp hg' with hgg | hmem
      · subst hgg
        refine hmono g'.id ?_
        rw [hset, memberLookup_insert, if_pos rfl]
        rfl
      · exact hpresent g' hmem

/-- Claim C1: defining a class under the Discord models metaclass with an
empty (falsy) `ROUTE` and a name other than `DiscordModelsBase` raises
`NotImplementedError` at definition time, while a non-empty `ROUTE`
defines without error; in particular the concrete `User` and
`GuildMember` classes define without error. -/
theorem claim1_route_fail_fast (name ROUTE : String) :
    (ROUTE = "" → name ≠ "DiscordModelsBase" →
      DiscordModelsMeta.init name ROUTE =
        .error (.notImplementedError
          ("ROUTE must be specified in a Discord model: " ++ name ++ "."))) ∧
    (ROUTE ≠ "" → DiscordModelsMeta.init name ROUTE = .ok ()) ∧
    DiscordModelsMeta.init "User" User.ROUTE = .ok () ∧
    DiscordModelsMeta.init "GuildMember" GuildMember.ROUTE = .ok () := by
  refine ⟨?_, ?_, rfl, rfl⟩
  · intro h1 h2
    simp [DiscordModelsMeta.init, h1, h2]
  · intro h1
    simp [DiscordModelsMeta.init, h1]

/-- Witness for C1 at the concrete inputs `("Integration", "")` and
`("User", User.ROUTE)`. -/
theorem claim1_witness :
    DiscordModelsMeta.init "Integration" "" =
      .error (.notImplementedError
        ("ROUTE must be specified in a Discord model: " ++ "Integration" ++ ".")) ∧
    DiscordModelsMeta.init "User" User.ROUTE = .ok () :=
  ⟨(claim1_route_fail_fast "Integration" "").1 rfl (by decide),
   (claim1_route_fail_fast "User" User.ROUTE).2.1 (by decide)⟩

/-- Claim C7: two `User` values compare equal exactly when their IDs are
equal, whatever the other fields hold, and `!=` is the negation of
`==`. -/
theorem claim7_user_eq_iff_id (x y : User) :
    (User.eq x y = true ↔ x.id = y.id) ∧ User.ne x y = !User.eq x y := by
  constructor
  · simp only [User.eq, beq_iff_eq]
    exact eq_comm
  · rfl

/-- Witness for C7 at two concrete users sharing the ID 42. -/
theorem claim7_witness :
    User.eq userA { userA with username := .str "other", user_guilds := some [] } = true :=
  (claim7_user_eq_iff_id userA
    { userA with username := .str "other", user_guilds := some [] }).1.mpr rfl

/-- Claim C8: two `GuildMember` values with the same user ID compare
equal even when their guild contexts differ; the guild ID plays no role
in member equality. -/
theorem claim8_member_eq_across_guilds (m1 m2 : GuildMember)
    (h : m1.id = m2.id) (hg : m1.guild_id ≠ m2.guild_id) :
    GuildMember.eq m1 m2 = true ∧ GuildMember.eq m2 m1 = true := by
  constructor <;> simp [GuildMember.eq, h]

/-- Witness for C8 at two concrete members with user ID 9 in guilds 1
and 2. -/
theorem claim8_witness :
    GuildMember.eq memberA memberB = true ∧ GuildMember.eq memberB memberA = true :=
  claim8_member_eq_across_guilds memberA memberB rfl (by decide)

/-- Claim C2: a string avatar hash starting with `a_` selects the
animated image format and any other non-empty string hash the static
format, for `User.avatar_url` and `GuildMember.icon_url` alike; a falsy
hash yields no URL for a member but the default-avatar URL at
`(id >> 22) % 6` for a user. -/
theorem claim2_avatar_url_selection (u : User) (m : GuildMember) :
    (∀ s : String, u.avatar_hash = .str s → s ≠ "" →
      u.avatar_url = DISCORD_USER_AVATAR_BASE_URL u.id s
        (if pyStartsWith s "a_" then DISCORD_ANIMATED_IMAGE_FORMAT
         else DISCORD_IMAGE_FORMAT)) ∧
    (u.avatar_hash.truthy = false →
      u.avatar_url = DISCORD_DEFAULT_USER_AVATAR_BASE_URL (pyMod (pyRShift u.id 22) 6)) ∧
    (∀ s : String, m.avatar_hash = .str s → s ≠ "" →
      m.icon_url = some (DISCORD_GUILD_MEMBER_AVATAR_BASE_URL m.member_guild_id m.id s
        (if pyStartsWith s "a_" then DISCORD_ANIMATED_IMAGE_FORMAT
         else DISCORD_IMAGE_FORMAT))) ∧
    (m.avatar_hash.truthy = false → m.icon_url = none) :=
  ⟨fun s hs hne => User.avatar_url_str u s hs hne,
   fun h => User.avatar_url_falsy u h,
   fun s hs hne => GuildMember.icon_url_str m s hs hne,
   fun h => GuildMember.icon_url_falsy m h⟩

/-- Witness for C2 at a user with the animated hash `a_beef` and a member
without an avatar hash. -/
theorem claim2_witness :
    userA.avatar_url = DISCORD_USER_AVATAR_BASE_URL userA.id "a_beef"
      (if pyStartsWith "a_beef" "a_" then DISCORD_ANIMATED_IMAGE_FORMAT
       else DISCORD_IMAGE_FORMAT) ∧
    memberNoIcon.icon_url = none :=
  ⟨(claim2_avatar_url_selection userA memberNoIcon).1 "a_beef" rfl (by decide),
   (claim2_avatar_url_selection userA memberNoIcon).2.2.2 rfl⟩

/-- Claim C5: `add_to_guild` with no access token in the session's
authorization-token mapping raises the distinct `Unauthorized` condition
with no bot request issued; with a token present it issues exactly one
PUT to the guild-member route carrying the token, and a falsy (empty)
response body comes back as an empty dict. -/
theorem claim5_add_to_guild (u : User) (tok : List (String × JValue))
    (botApi : String → String → JValue → JValue) (guild_id : Int) :
    (pyLookup tok "access_token" = none →
      User.add_to_guild u tok botApi guild_id = (.error .unauthorized, [])) ∧
    (∀ t, pyLookup tok "access_token" = some t →
      User.add_to_guild u tok botApi guild_id =
        (.ok (if (botApi ("/guilds/" ++ toString guild_id ++ "/members/" ++ toString u.id)
                  "PUT" (.obj [("access_token", t)])).truthy
              then botApi ("/guilds/" ++ toString guild_id ++ "/members/" ++ toString u.id)
                  "PUT" (.obj [("access_token", t)])
              else .obj []),
          [("/guilds/" ++ toString guild_id ++ "/members/" ++ toString u.id, "PUT",
            .obj [("access_token", t)])])) := by
  constructor
  · intro h
    simp [User.add_to_guild, h]
  · intro t h
    simp [User.add_to_guild, h]

/-- Witness for C5 at a user with ID 42, an empty token mapping, a
one-entry token mapping, and an always-empty bot-response oracle. -/
theorem claim5_witness :
    User.add_to_guild userA [] botApiNull 5 = (.error .unauthorized, []) ∧
    User.add_to_guild userA tokA botApiNull 5 =
      (.ok (.obj []),
        [("/guilds/" ++ toString (5 : Int) ++ "/members/" ++ toString userA.id, "PUT",
          .obj [("access_token", .str "tok")])]) :=
  ⟨(claim5_add_to_guild userA [] botApiNull 5).1 rfl,
   (claim5_add_to_guild userA tokA botApiNull 5).2 (.str "tok") rfl⟩

/-- Claim C4 (amended): a constructed `User` is migrated exactly when the
payload's `discriminator` is the string `"0"`; when migrated, the global
name is the payload's `global_name` value if that value is present and
truthy, and otherwise the `username` value (Python `or` semantics); when
not migrated the global name is always `None`. -/
theorem claim4_migrated_global_name (kvs : List (String × JValue)) (u : User)
    (h : User.init (.obj kvs) = .ok u) :
    (u.is_migrated = true ↔ pyLookup kvs "discriminator" = some (.str "0")) ∧
    (u.is_migrated = true → (pyGet kvs "global_name" .null).truthy = true →
      u.global_name = pyGet kvs "global_name" .null) ∧
    (u.is_migrated = true → (pyGet kvs "global_name" .null).truthy = false →
      u.global_name = pyGet kvs "username" .null) ∧
    (u.is_migrated = false → u.global_name = .null) := by
  obtain ⟨idv, i, username, discriminator, hid, hint, husr, hdis, rfl⟩ :=
    User.init_obj_inv kvs u h
  have hget : pyGet kvs "discriminator" .null = discriminator := by
    simp [pyGet, hdis]
  refine ⟨?_, ?_, ?_, ?_⟩
  · show pyEqStr (pyGet kvs "discriminator" .null) "0" = true ↔ _
    rw [hget, pyEqStr_eq_true_iff, hdis]
    simp
  · intro h1 h2
    dsimp only at h1 ⊢
    simp [h1, h2]
  · intro h1 h2
    dsimp only at h1 ⊢
    simp [h1, h2]
  · intro h1
    dsimp only at h1 ⊢
    simp [h1]

/-- Counterexample to C4 as stated: in the payload `payloadC4kvs` the
`global_name` key is present (with value `None`), yet the constructed
user's global name is taken from `username` (`"alice"`), not from the
present `global_name` key. -/
theorem claim4_counterexample :
    pyLookup payloadC4kvs "global_name" = some .null ∧
    (User.init (.obj payloadC4kvs)).map User.global_name = .ok (.str "alice") ∧
    JValue.str "alice" ≠ JValue.null :=
  ⟨rfl, rfl, fun hcontra => JValue.noConfusion hcontra⟩

/-- Witness for C4 at the concrete payload `kvs4w` (discriminator `"0"`,
truthy global name `"Bobby"`). -/
theorem claim4_witness :
    user4w.is_migrated = true ∧ user4w.global_name = pyGet kvs4w "global_name" .null :=
  ⟨(claim4_migrated_global_name kvs4w user4w rfl).1.mpr rfl,
   (claim4_migrated_global_name kvs4w user4w rfl).2.1
     ((claim4_migrated_global_name kvs4w user4w rfl).1.mpr rfl) rfl⟩

/-- Claim C10: when the payload has no `avatar` key the constructed
user's avatar hash equals the payload's discriminator value, and for a
non-empty string discriminator `avatar_url` is the hash-based CDN URL
built from that discriminator string. -/
theorem claim10_avatar_hash_from_discriminator (kvs : List (String × JValue)) (u : User)
    (h : User.init (.obj kvs) = .ok u) (hav : pyLookup kvs "avatar" = none) :
    u.avatar_hash = u.discriminator ∧
    pyLookup kvs "discriminator" = some u.discriminator ∧
    (∀ d : String, u.discriminator = .str d → d ≠ "" →
      u.avatar_url = DISCORD_USER_AVATAR_BASE_URL u.id d
        (if pyStartsWith d "a_" then DISCORD_ANIMATED_IMAGE_FORMAT
         else DISCORD_IMAGE_FORMAT)) := by
  obtain ⟨idv, i, username, discriminator, hid, hint, husr, hdis, rfl⟩ :=
    User.init_obj_inv kvs u h
  have h1 : pyGet kvs "avatar" discriminator = discriminator := by
    simp [pyGet, hav]
  refine ⟨?_, ?_, ?_⟩
  · dsimp only
    exact h1
  · dsimp only
    exact hdis
  · intro d hd hne
    refine User.avatar_url_str _ d ?_ hne
    dsimp only at hd ⊢
    rw [h1, hd]

/-- Witness for C10 at the avatar-less payload `kvs10` with discriminator
`"1234"`. -/
theorem claim10_witness :
    user10.avatar_hash = user10.discriminator ∧
    user10.avatar_url = DISCORD_USER_AVATAR_BASE_URL user10.id "1234"
      (if pyStartsWith "1234" "a_" then DISCORD_ANIMATED_IMAGE_FORMAT
       else DISCORD_IMAGE_FORMAT) :=
  ⟨(claim10_avatar_hash_from_discriminator kvs10 user10 rfl rfl).1,
   (claim10_avatar_hash_from_discriminator kvs10 user10 rfl rfl).2.2 "1234" rfl (by decide)⟩

/-- Claim C6 (amended): constructing `User` or `Integration` with all
optional keys absent never raises (given `User`'s required
`id`/`username`/`discriminator`), and absent optional keys resolve to the
documented defaults; a `GuildMember` succeeds with every optional key
absent provided the `user` key is present as a dict with an
int-convertible `id` — that key is required, and an empty payload
raises. -/
theorem claim6_optional_defaults :
    (∀ (kvs : List (String × JValue)) (idv uv dv : JValue) (n : Int),
      pyLookup kvs "id" = some idv → pyInt idv = .ok n →
      pyLookup kvs "username" = some uv → pyLookup kvs "discriminator" = some dv →
      exceptOk (User.init (.obj kvs)) = true) ∧
    (∀ (kvs ukvs : List (String × JValue)) (gid : Int) (idv : JValue) (n : Int),
      pyLookup kvs "user" = some (.obj ukvs) →
      pyLookup ukvs "id" = some idv → pyInt idv = .ok n →
      exceptOk (GuildMember.init (.obj kvs) gid) = true) ∧
    (∀ kvs : List (String × JValue),
      pyLookup kvs "id" = none → pyLookup kvs "role_id" = none →
      exceptOk (Integration.init (.obj kvs)) = true) ∧
    (∀ (kvs : List (String × JValue)) (u : User), User.init (.obj kvs) = .ok u →
      pyLookup kvs "bot" = none → pyLookup kvs "mfa_enabled" = none →
      u.bot = .bool false ∧ u.mfa_enabled = .null) ∧
    (∀ (kvs : List (String × JValue)) (gid : Int) (m : GuildMember),
      GuildMember.init (.obj kvs) gid = .ok m →
      pyLookup kvs "pending" = none → pyLookup kvs "permissions" = none →
      m.pending = .bool false ∧ m.permissions = .int 0) := by
  refine ⟨?_, ?_, ?_, ?_, ?_⟩
  · intro kvs idv uv dv n h1 h2 h3 h4
    show exceptOk (User.initObj kvs) = true
    simp [User.initObj, h1, h2, h3, h4, exceptOk]
  · intro kvs ukvs gid idv n h1 h2 h3
    show exceptOk (GuildMember.initObj kvs gid) = true
    simp [GuildMember.initObj, pyGet, h1, h2, h3, exceptOk]
  · intro kvs h1 h2
    show exceptOk (Integration.initObj kvs) = true
    simp [Integration.initObj, pyGet, h1, h2, pyInt, exceptOk]
  · intro kvs u h hbot hmfa
    obtain ⟨idv, i, username, discriminator, -, -, -, -, rfl⟩ := User.init_obj_inv kvs u h
    dsimp only
    exact ⟨by simp [pyGet, hbot], by simp [pyGet, hmfa]⟩
  · intro kvs gid m h h1 h2
    obtain ⟨ukvs, i, -, -, rfl⟩ := GuildMember.initObj_inv kvs gid m h
    dsimp only
    exact ⟨by simp [pyGet, h1], by simp [pyGet, h2]⟩

/-- Counterexample to C6 as stated: constructing a `GuildMember` from a
payload without the `user` key raises AttributeError instead of
succeeding. -/
theorem claim6_counterexample :
    GuildMember.init (.obj []) 5 = .error .attributeError ∧
    exceptOk (GuildMember.init (.obj []) 5) = false :=
  ⟨rfl, rfl⟩

/-- Witness for C6 at concrete payloads: a required-keys-only user
payload, a `user`-only member payload, and an empty integration
payload. -/
theorem claim6_witness :
    exceptOk (User.init (.obj kvs6)) = true ∧
    exceptOk (GuildMember.init (.obj kvs6m) 3) = true ∧
    exceptOk (Integration.init (.obj [])) = true :=
  ⟨claim6_optional_defaults.1 kvs6 (.int 5) (.str "u") (.str "9") 5 rfl rfl rfl rfl,
   claim6_optional_defaults.2.1 kvs6m [("id", .int 9)] 3 (.int 9) 9 rfl rfl rfl,
   claim6_optional_defaults.2.2.1 [] rfl rfl⟩

/-- Claim C3 (amended): `fetch_guild_members()` iterates exactly the
currently cached guild list, requesting one member route per cached guild
in order and inserting the fetched member keyed by its guild ID; with no
cached guild mapping the call raises TypeError; with an empty cached
guild mapping it performs no requests and returns the user's current
guild-members mapping unchanged (empty whenever nothing was previously
cached). -/
theorem claim3_fetch_guild_members (u : User) (api : String → JValue) :
    (u.user_guilds = none → User.fetch_guild_members u api = (.error .typeError, [])) ∧
    (∀ gm : List (Int × Guild), u.user_guilds = some gm →
      (∀ g ∈ gm.map Prod.snd, exceptOk (GuildMember.fetch_from_api api g.id).1 = true) →
      ∃ u', User.fetch_guild_members u api =
          (.ok (u'.guild_members, u'),
            (gm.map Prod.snd).map (fun g => GuildMember.fetch_route g.id)) ∧
        u'.id = u.id ∧ u'.user_guilds = u.user_guilds ∧ u'.connections = u.connections ∧
        (∀ k : Int, (∀ g ∈ gm.map Prod.snd, g.id ≠ k) →
          memberLookup u'.user_guild_members k = memberLookup u.user_guild_members k) ∧
        (∀ g ∈ gm.map Prod.snd, (memberLookup u'.user_guild_members g.id).isSome = true)) ∧
    (u.user_guilds = some [] →
      User.fetch_guild_members u api = (.ok (u.guild_members, u), [])) := by
  refine ⟨?_, ?_, ?_⟩
  · intro h
    simp [User.fetch_guild_members, User.guilds, h]
  · intro gm h hs
    obtain ⟨u', hloop, h1, h2, h3, h4, h5, h6, hframe, hmono, hpresent⟩ :=
      fetch_guild_members_loop_spec api (gm.map Prod.snd) u hs
    refine ⟨u', ?_, h1, h5, h6, hframe, hpresent⟩
    simp [User.fetch_guild_members, User.guilds, h, hloop]
  · intro h
    simp [User.fetch_guild_members, User.guilds, h, User.fetch_guild_members_loop]

/-- Counterexample to C3 as stated: `userE` has an empty cached guild
mapping but one previously cached member, so the call returns that
non-empty mapping rather than an empty one. -/
theorem claim3_counterexample :
    userE.user_guilds = some [] ∧
    User.fetch_guild_members userE apiMember = (.ok ([(1, memberA)], userE), []) ∧
    ([(1, memberA)] : List (Int × GuildMember)) ≠ [] :=
  ⟨rfl, rfl, by simp⟩

/-- Witness for C3 at a user with no cached guilds (TypeError) and a user
with an empty cached guild mapping (no requests, mapping returned
unchanged). -/
theorem claim3_witness :
    User.fetch_guild_members userA apiMember = (.error .typeError, []) ∧
    User.fetch_guild_members userE apiMember = (.ok (userE.guild_members, userE), []) :=
  ⟨(claim3_fetch_guild_members userA apiMember).1 rfl,
   (claim3_fetch_guild_members userE apiMember).2.2 rfl⟩

/-- Claim C9 (amended): a `fetch_guild_member(guild_id)` call that
returns a member inserts or overwrites exactly the entry keyed by that
guild ID, leaves every other entry and every other user field unchanged,
and requested exactly the member route (for the sentinel `guild_id = 0`
the call instead raises TypeError, see the counterexample). -/
theorem claim9_fetch_guild_member_frame (u : User) (api : String → JValue) (guild_id : Int)
    (member : GuildMember) (u' : User) (log : List String)
    (h : User.fetch_guild_member u api guild_id = (.ok (member, u'), log)) :
    member.guild_id = guild_id ∧
    memberLookup u'.user_guild_members guild_id = some member ∧
    (∀ k : Int, k ≠ guild_id →
      memberLookup u'.user_guild_members k = memberLookup u.user_guild_members k) ∧
    u'.id = u.id ∧ u'.username = u.username ∧ u'.discriminator = u.discriminator ∧
    u'.user_guilds = u.user_guilds ∧ u'.connections = u.connections ∧
    log = [GuildMember.fetch_route guild_id] := by
  by_cases h0 : guild_id = 0
  · rw [User.fetch_guild_member] at h
    simp [GuildMember.fetch_from_api, h0] at h
  · cases hinit : GuildMember.init (api (GuildMember.fetch_route guild_id)) guild_id with
    | error e =>
      rw [User.fetch_guild_member] at h
      simp [GuildMember.fetch_from_api, h0, hinit] at h
    | ok mem =>
      have hgid : mem.guild_id = guild_id := GuildMember.init_guild_id _ _ _ hinit
      have hfetch : GuildMember.fetch_from_api api guild_id
          = (.ok mem, [GuildMember.fetch_route guild_id]) := by
        simp [GuildMember.fetch_from_api, h0, hinit]
      rw [User.fetch_guild_member, hfetch] at h
      simp only [Prod.mk.injEq, Except.ok.injEq] at h
      obtain ⟨⟨hmem, hu'⟩, hlog⟩ := h
      subst hmem
      subst hu'
      subst hlog
      have hset : (u.set_guild_members mem).user_guild_members
          = memberInsert u.user_guild_members guild_id mem := by
        simp [User.set_guild_members, hgid]
      refine ⟨hgid, ?_, ?_, rfl, rfl, rfl, rfl, rfl, rfl⟩
      · rw [hset, memberLookup_insert, if_pos rfl]
      · intro k hk
        rw [hset, memberLookup_insert, if_neg (fun he => hk he.symm)]

/-- Counterexample to C9 as stated: at the sentinel `guild_id = 0` the
call raises TypeError (after requesting the unsubstituted route) instead
of inserting an entry and returning a member. -/
theorem claim9_counterexample :
    User.fetch_guild_member userA apiMember 0 = (.error .typeError, [GuildMember.ROUTE]) ∧
    exceptOk (User.fetch_guild_member userA apiMember 0).1 = false :=
  ⟨rfl, rfl⟩

/-- Witness for C9 at a concrete successful fetch in guild 7. -/
theorem claim9_witness :
    memberLookup (userA.set_guild_members member7).user_guild_members 7 = some member7 ∧
    member7.guild_id = 7 :=
  ⟨(claim9_fetch_guild_member_frame userA apiMember 7 member7
      (userA.set_guild_members member7) [GuildMember.fetch_route 7] rfl).2.1,
   (claim9_fetch_guild_member_frame userA apiMember 7 member7
      (userA.set_guild_members member7) [GuildMember.fetch_route 7] rfl).1⟩
